import Mathlib

/-!
Shallow embedding of the connection-configuration manager
(`DatabricksConnectionManager`) and the job-run tree node
(`DatabricksJobRun`) of the Databricks-VSCode extension, together with
theorems settling the specification claims about them.

Host-API collaborators (the VSCode configuration store, the remote API
client, notifications, timers) are represented by explicit effect traces:
each operation returns, besides its value and updated state, the ordered
list of external calls it performs.
-/

namespace DatabricksVSCode

/-- A connection value (`DatabricksConnection`).  Only `displayName` and
`useCodeCells` influence the operations verified here; the class itself
(`DatabricksConnection.ts`) is not among the sources, so the outcome of its
`validate()` method is carried as the field `validates`
(Modelled from the spec: "invalid connections are silently dropped during
load", the validator itself being unspecified beyond "passes validate()"). -/
structure DatabricksConnection where
  displayName : String
  useCodeCells : Bool
  validates : Bool
deriving DecidableEq

/-- The `iWorkspaceConfiguration` object stored under
`databricks.workspaceConfiguration`.  `none` models an `undefined` field. -/
structure WorkspaceConfiguration where
  workspaceGuid : Option String
  lastActiveConnection : Option String
deriving DecidableEq

/-- An `iUserWorkspaceConfiguration` entry of the global
`databricks.userWorkspaceConfigurations` list. -/
structure UserWorkspaceConfiguration where
  workspaceConfig : WorkspaceConfiguration
  connections : List DatabricksConnection
deriving DecidableEq

/-- External calls made through the host API, recorded as trace events:
configuration writes at their scope and the remote-API-client init call.
`setCodeCellsRegex b` stands for the update of
`python.dataScience.codeRegularExpression` (with the regular expression
when `b = true`, with `undefined` when `b = false`). -/
inductive Effect where
  /-- `update('databricks.workspaceConfiguration', cfg, Workspace)` -/
  | writeWorkspaceConfiguration (cfg : WorkspaceConfiguration)
  /-- `update('databricks.userWorkspaceConfigurations', cfgs, Global)` -/
  | writeUserWorkspaceConfigurations (cfgs : List UserWorkspaceConfiguration)
  /-- `cleanConnectionsFromConfig`: clears `databricks.connections` -/
  | clearConnectionsSetting
  /-- `cleanDefaultConnectionFromConfig`: clears the flat default keys -/
  | clearDefaultConnectionSettings
  /-- code-cells editor toggle applied on activation -/
  | setCodeCellsRegex (enabled : Bool)
  /-- `DatabricksApiService` init call against a connection -/
  | initApiService (c : DatabricksConnection)
deriving DecidableEq

/-- `getConnectionsFromWorkspace`: the `databricks.connections` list with
entries failing `validate()` dropped. -/
def getConnectionsFromWorkspace (cons : List DatabricksConnection) :
    List DatabricksConnection :=
  cons.filter (fun con => con.validates)

/-- `getDefaultConnectionFromWorkspace`: the connection assembled from the
flat `databricks.connection.default.*` keys; `null` (here `none`) when its
`displayName` is empty or it fails `validate()`. -/
def getDefaultConnectionFromWorkspace (con : DatabricksConnection) :
    Option DatabricksConnection :=
  if con.displayName == "" || !con.validates then none else some con

/-- Lines 78-84 of `loadConnections`: append the default connection when
its `displayName` is absent from the explicit list, then append the
persisted connections whose `displayName` is absent from
`this._connections` as it stands after the default was handled (the filter
of line 82 reads `this._connections`, which is only reassigned at line 84,
after the filter has run). -/
def mergeConnections (connectionsFromWorkspace : List DatabricksConnection)
    (defaultConnectionFromWorkspace : Option DatabricksConnection)
    (connectionsFromUserConfig : List DatabricksConnection) :
    List DatabricksConnection :=
  let conns :=
    match defaultConnectionFromWorkspace with
    | some d =>
        if (connectionsFromWorkspace.map (fun x => x.displayName)).contains d.displayName then
          connectionsFromWorkspace
        else
          connectionsFromWorkspace ++ [d]
    | none => connectionsFromWorkspace
  let newConnectionsFromWorkspace :=
    connectionsFromUserConfig.filter
      (fun x => !((conns.map (fun y => y.displayName)).contains x.displayName))
  conns ++ newConnectionsFromWorkspace

/-- The merge as the specification words it: persisted connections are
appended one at a time, each checked against the accumulated set at append
time, so that a later persisted entry duplicating an earlier persisted
entry is also dropped.  Stated only to be compared with
`mergeConnections`, the merge the code performs. -/
def mergeConnectionsSpec (connectionsFromWorkspace : List DatabricksConnection)
    (defaultConnectionFromWorkspace : Option DatabricksConnection)
    (connectionsFromUserConfig : List DatabricksConnection) :
    List DatabricksConnection :=
  let conns :=
    match defaultConnectionFromWorkspace with
    | some d =>
        if (connectionsFromWorkspace.map (fun x => x.displayName)).contains d.displayName then
          connectionsFromWorkspace
        else
          connectionsFromWorkspace ++ [d]
    | none => connectionsFromWorkspace
  connectionsFromUserConfig.foldl
    (fun acc x =>
      if (acc.map (fun y => y.displayName)).contains x.displayName then acc
      else acc ++ [x])
    conns

/-- The error raised by `CurrentUserWorkspaceConfiguration` when several
global entries share the current `workspaceGuid`. -/
def duplicateWorkspaceGuidError : String :=
  "There is an error in your User Workspace Configurations ('databricks.userWorkspaceConfigurations'). Please make sure all 'workspaceGuid' are unique!"

/-- `CurrentUserWorkspaceConfiguration`: the global entries are filtered by
the current `workspaceGuid`; exactly one match is returned, zero matches
yield `undefined` (here `none`), and anything else raises the duplicate
guid error.  The singleton-list match renders the code's
`length == 1` test followed by the `[0]` access. -/
def currentUserWorkspaceConfiguration
    (allUserWorkspaceConfigs : List UserWorkspaceConfiguration)
    (wcfg : WorkspaceConfiguration) :
    Except String (Option UserWorkspaceConfiguration) :=
  match allUserWorkspaceConfigs.filter
      (fun x => x.workspaceConfig.workspaceGuid == wcfg.workspaceGuid) with
  | [c] => .ok (some c)
  | [] => .ok none
  | _ => .error duplicateWorkspaceGuidError

/-- `getConnectionsFromUserConfig`: the connection list of the current
user workspace configuration, validated entry by entry; the empty list
when the current configuration is `undefined`. -/
def getConnectionsFromUserConfig
    (currentUserWorkspaceConfig : Option UserWorkspaceConfiguration) :
    List DatabricksConnection :=
  match currentUserWorkspaceConfig with
  | some cfg => cfg.connections.filter (fun con => con.validates)
  | none => []

/-- The pure content of `updateUserWorkspaceConfig` (lines 230-248): keep
every global entry whose `workspaceGuid` differs from the current one and
append the current configuration.  (The code's `undefined` branch is dead:
`CurrentWorkspaceConfiguration` always returns an object literal.) -/
def updateUserWorkspaceConfig
    (allUserWorkspaceConfigurations : List UserWorkspaceConfiguration)
    (current : UserWorkspaceConfiguration) : List UserWorkspaceConfiguration :=
  (allUserWorkspaceConfigurations.filter
    (fun x => !(x.workspaceConfig.workspaceGuid ==
                current.workspaceConfig.workspaceGuid))) ++ [current]

/-- Lines 54-57 of `loadConnections`: generate a fresh `workspaceGuid`
when none is set. -/
def effectiveWorkspaceConfig (wcfg : WorkspaceConfiguration)
    (freshGuid : String) : WorkspaceConfiguration :=
  if wcfg.workspaceGuid = none then { wcfg with workspaceGuid := some freshGuid }
  else wcfg

/-- One snapshot of the configuration store as read by `loadConnections`. -/
structure ConfigurationSnapshot where
  /-- `databricks.workspaceConfiguration` (workspace scope) -/
  workspaceConfiguration : WorkspaceConfiguration
  /-- `databricks.connections` (workspace scope), raw, not yet validated -/
  connections : List DatabricksConnection
  /-- the connection assembled from `databricks.connection.default.*` -/
  defaultConnection : DatabricksConnection
  /-- `databricks.userWorkspaceConfigurations` (global scope) -/
  userWorkspaceConfigurations : List UserWorkspaceConfiguration
deriving DecidableEq

/-- The state and effect trace `loadConnections` leaves behind. -/
structure LoadResult where
  workspaceConfig : WorkspaceConfiguration
  connections : List DatabricksConnection
  writes : List Effect
deriving DecidableEq

/-- `loadConnections`: guid generation, the three source reads, the merge,
and the persistence step `updateUserWorkspaceConfig` (global write followed
by the two workspace-scope clears).  Raises the duplicate guid error of
`CurrentUserWorkspaceConfiguration` when several global entries match. -/
def loadConnections (snap : ConfigurationSnapshot) (freshGuid : String) :
    Except String LoadResult :=
  let wcfg := effectiveWorkspaceConfig snap.workspaceConfiguration freshGuid
  let conns := getConnectionsFromWorkspace snap.connections
  let defaultConnectionFromWorkspace :=
    getDefaultConnectionFromWorkspace snap.defaultConnection
  match currentUserWorkspaceConfiguration snap.userWorkspaceConfigurations wcfg with
  | .error e => .error e
  | .ok cur =>
      let connectionsFromUserConfig := getConnectionsFromUserConfig cur
      let merged :=
        mergeConnections conns defaultConnectionFromWorkspace connectionsFromUserConfig
      let updated :=
        updateUserWorkspaceConfig snap.userWorkspaceConfigurations ⟨wcfg, merged⟩
      .ok
        { workspaceConfig := wcfg
          connections := merged
          writes :=
            [Effect.writeUserWorkspaceConfigurations updated,
             Effect.clearConnectionsSetting,
             Effect.clearDefaultConnectionSettings] }

/-- Does a trace write `databricks.workspaceConfiguration` at workspace
scope? -/
def writesWorkspaceConfiguration (writes : List Effect) : Bool :=
  writes.any (fun w =>
    match w with
    | Effect.writeWorkspaceConfiguration _ => true
    | _ => false)

/-- The manager's mutable fields touched by `activateConnection`. -/
structure ManagerState where
  workspaceConfig : WorkspaceConfiguration
  connections : List DatabricksConnection
  activeConnection : Option DatabricksConnection
deriving DecidableEq

/-- `activateConnection`: filter the connections by `displayName`; on a
unique match set it active, record `lastActiveConnection`, init the remote
API client, persist the workspace config and apply the code-cells toggle;
otherwise raise the not-found error, leaving the state untouched (the
`else` branch only logs and throws).  The singleton-list match renders the
code's `length == 1` test followed by the `[0]` access. -/
def activateConnection (s : ManagerState) (displayName : String) :
    Except String DatabricksConnection × ManagerState × List Effect :=
  match s.connections.filter (fun x => x.displayName == displayName) with
  | [c] =>
      let newConfig := { s.workspaceConfig with lastActiveConnection := some displayName }
      (.ok c,
       { s with activeConnection := some c, workspaceConfig := newConfig },
       [Effect.initApiService c,
        Effect.writeWorkspaceConfiguration newConfig,
        Effect.setCodeCellsRegex c.useCodeCells])
  | _ =>
      (.error ("Connection with name  '" ++ displayName ++ "' could not be found!"),
       s, [])

/-- The `state` getter of `DatabricksJobRun`: the tri-state bucket derived
from `definition.state.result_state` (`none` models an unset field; the
code's `==` comparisons against an `undefined` field are false). -/
def jobRunState (result_state : Option String) : String :=
  if result_state == some "SUCCESS" then "succeeded"
  else if result_state == some "FAILED" || result_state == some "CANCELED"
      || result_state == some "TIMEDOUT" then "failed"
  else "running"

/-- The timing fields of an `iDatabricksJobRun` record used by the tooltip
(epoch milliseconds and millisecond durations). -/
structure JobRunRecord where
  start_time : Int
  setup_duration : Int
  execution_duration : Int
  cleanup_duration : Int
  result_state : Option String
deriving DecidableEq

/-- Line 34 of the tooltip: the end `Date` of a run,
`start_time + setup_duration + execution_duration + cleanup_duration`. -/
def jobRunEndTime (r : JobRunRecord) : Int :=
  r.start_time + r.setup_duration + r.execution_duration + r.cleanup_duration

/-- The finish time the tooltip displays, present only on the `succeeded`
branch (lines 32-37). -/
def tooltipFinishTime (r : JobRunRecord) : Option Int :=
  if jobRunState r.result_state == "succeeded" then some (jobRunEndTime r)
  else none

/-- The elapsed duration the tooltip displays on the `succeeded` branch:
`(endDate.getTime() - startDate.getTime()) / 1000` seconds (line 36). -/
def tooltipElapsedSeconds (r : JobRunRecord) : Option ℚ :=
  if jobRunState r.result_state == "succeeded" then
    some (((jobRunEndTime r : ℚ) - (r.start_time : ℚ)) / 1000)
  else none

/-- `notebook_task` payload; `base_parameters` is carried as its JSON
serialization, `JSON.stringify` being a host collaborator. -/
structure NotebookTask where
  notebook_path : String
  revision_timestamp : Int
  base_parameters : String
deriving DecidableEq

/-- `spark_jar_task` payload. -/
structure SparkJarTask where
  jar_uri : String
  main_class_name : String
  parameters : List String
deriving DecidableEq

/-- `spark_python_task` payload. -/
structure SparkPythonTask where
  python_file : String
  parameters : List String
deriving DecidableEq

/-- `spark_submit_task` payload. -/
structure SparkSubmitTask where
  parameters : List String
deriving DecidableEq

/-- The `task` object of an `iDatabricksJobRun`: four optional
variant-specific payload fields, probed for truthiness in the getters. -/
structure JobTask where
  notebook_task : Option NotebookTask
  spark_jar_task : Option SparkJarTask
  spark_python_task : Option SparkPythonTask
  spark_submit_task : Option SparkSubmitTask
deriving DecidableEq

/-- The `task_type` getter: sequential truthiness probes; falling off the
end returns `undefined` (here `none`). -/
def task_type (t : JobTask) : Option String :=
  if t.notebook_task.isSome then some "Notebook"
  else if t.spark_jar_task.isSome then some "JAR"
  else if t.spark_python_task.isSome then some "Python"
  else if t.spark_submit_task.isSome then some "Submit"
  else none

/-- The `task_description` getter. -/
def task_description (t : JobTask) : Option String :=
  match t.notebook_task with
  | some nb => some ("Notebook: " ++ nb.notebook_path)
  | none =>
    match t.spark_jar_task with
    | some j => some ("JAR: " ++ j.jar_uri ++ " - " ++ j.main_class_name)
    | none =>
      match t.spark_python_task with
      | some p => some ("Python: " ++ p.python_file)
      | none =>
        match t.spark_submit_task with
        | some s => some ("Spark-Submit: " ++ String.intercalate " " s.parameters)
        | none => none

/-- The `task_details` getter. -/
def task_details (t : JobTask) : Option String :=
  match t.notebook_task with
  | some nb =>
      some ("Notebook: " ++ nb.notebook_path ++ "\nRevision Timestamp: "
        ++ toString nb.revision_timestamp ++ "\nParameters: " ++ nb.base_parameters)
  | none =>
    match t.spark_jar_task with
    | some j =>
        some ("JAR: " ++ j.jar_uri ++ "\nMain Class: " ++ j.main_class_name
          ++ "\nParameters: " ++ String.intercalate " " j.parameters)
    | none =>
      match t.spark_python_task with
      | some p =>
          some ("Python: " ++ p.python_file ++ "\nParameters: "
            ++ String.intercalate " " p.parameters)
      | none =>
        match t.spark_submit_task with
        | some s => some ("Spark-Submit: " ++ String.intercalate " " s.parameters)
        | none => none

/-- The task payload variant a record carries, tagged. -/
inductive TaskVariant where
  | notebook (t : NotebookTask)
  | jar (t : SparkJarTask)
  | python (t : SparkPythonTask)
  | submit (t : SparkSubmitTask)
deriving DecidableEq

/-- The variant all three getters dispatch on: the first populated payload
field in the fixed priority order notebook, JAR, Python, Spark-Submit. -/
def selectedTaskVariant (t : JobTask) : Option TaskVariant :=
  match t.notebook_task with
  | some nb => some (.notebook nb)
  | none =>
    match t.spark_jar_task with
    | some j => some (.jar j)
    | none =>
      match t.spark_python_task with
      | some p => some (.python p)
      | none =>
        match t.spark_submit_task with
        | some s => some (.submit s)
        | none => none

/-- The type label of a variant, as `task_type` formats it. -/
def variantTypeName : TaskVariant → String
  | .notebook _ => "Notebook"
  | .jar _ => "JAR"
  | .python _ => "Python"
  | .submit _ => "Submit"

/-- The one-line description of a variant, as `task_description` formats it. -/
def variantDescription : TaskVariant → String
  | .notebook nb => "Notebook: " ++ nb.notebook_path
  | .jar j => "JAR: " ++ j.jar_uri ++ " - " ++ j.main_class_name
  | .python p => "Python: " ++ p.python_file
  | .submit s => "Spark-Submit: " ++ String.intercalate " " s.parameters

/-- The multi-line details of a variant, as `task_details` formats them. -/
def variantDetails : TaskVariant → String
  | .notebook nb =>
      "Notebook: " ++ nb.notebook_path ++ "\nRevision Timestamp: "
        ++ toString nb.revision_timestamp ++ "\nParameters: " ++ nb.base_parameters
  | .jar j =>
      "JAR: " ++ j.jar_uri ++ "\nMain Class: " ++ j.main_class_name
        ++ "\nParameters: " ++ String.intercalate " " j.parameters
  | .python p =>
      "Python: " ++ p.python_file ++ "\nParameters: "
        ++ String.intercalate " " p.parameters
  | .submit s => "Spark-Submit: " ++ String.intercalate " " s.parameters

/-- The externally visible steps of `DatabricksJobRun.stop`. -/
inductive StopEvent where
  /-- `DatabricksApiService` cancel call for a run id -/
  | cancelCall (runId : Int)
  /-- `showInformationMessage` on a resolved cancel promise -/
  | infoNotice
  /-- `showErrorMessage` on a rejected cancel promise -/
  | errorNotice
  /-- `Helper.wait` for a number of milliseconds -/
  | waitDelay (ms : Nat)
  /-- `executeCommand("databricksJobs.refresh", false)` -/
  | refreshRequest
deriving DecidableEq

/-- The event trace of `stop()`: fire the cancel call, surface its outcome
as a notice, await the fixed 10000 ms delay, then request the job-list
refresh.  `cancelSucceeds` is the settlement of the cancel promise. -/
def stopTrace (runId : Int) (cancelSucceeds : Bool) : List StopEvent :=
  [StopEvent.cancelCall runId,
   if cancelSucceeds then StopEvent.infoNotice else StopEvent.errorNotice,
   StopEvent.waitDelay 10000,
   StopEvent.refreshRequest]

/-- Tests whether a stop-trace event is the job-list refresh request. -/
def isRefreshRequest : StopEvent → Bool
  | .refreshRequest => true
  | _ => false

/-- Tests whether an effect is the remote-API-client init call. -/
def isInitApiService : Effect → Bool
  | .initApiService _ => true
  | _ => false

/-- The spec's concrete succeeded run: start 0 ms, setup 1000 ms,
execution 2000 ms, cleanup 500 ms. -/
def exampleSucceededRun : JobRunRecord :=
  { start_time := 0
    setup_duration := 1000
    execution_duration := 2000
    cleanup_duration := 500
    result_state := some "SUCCESS" }

/-- A connection named `"B"` that passes validation. -/
def connB : DatabricksConnection := ⟨"B", false, true⟩

/-- A connection named `"A"` that passes validation. -/
def connA : DatabricksConnection := ⟨"A", false, true⟩

/-- A snapshot with an empty store: no guid yet, no connections, a blank
default, no global entries. -/
def emptySnapshot : ConfigurationSnapshot :=
  { workspaceConfiguration := ⟨none, none⟩
    connections := []
    defaultConnection := ⟨"", false, false⟩
    userWorkspaceConfigurations := [] }

/-- The result `loadConnections` produces on `emptySnapshot` with fresh
guid `"g1"`. -/
def emptySnapshotLoadResult : LoadResult :=
  { workspaceConfig := ⟨some "g1", none⟩
    connections := []
    writes :=
      [Effect.writeUserWorkspaceConfigurations [⟨⟨some "g1", none⟩, []⟩],
       Effect.clearConnectionsSetting,
       Effect.clearDefaultConnectionSettings] }

/-- A job task with all four payload fields populated, to exercise the
priority order. -/
def exampleAllTasksPresent : JobTask :=
  { notebook_task := some ⟨"/nb", 0, "null"⟩
    spark_jar_task := some ⟨"uri", "Main", []⟩
    spark_python_task := some ⟨"main.py", []⟩
    spark_submit_task := some ⟨[]⟩ }

/-- A snapshot whose global store carries two entries for the same guid
`"g"`, the current workspace's guid. -/
def duplicateGuidSnapshot : ConfigurationSnapshot :=
  { workspaceConfiguration := ⟨some "g", none⟩
    connections := []
    defaultConnection := ⟨"", false, false⟩
    userWorkspaceConfigurations := [⟨⟨some "g", none⟩, []⟩, ⟨⟨some "g", none⟩, []⟩] }

/-- C7: the derived state bucket maps `result_state = "SUCCESS"` to
`succeeded`, each of `"FAILED"`, `"CANCELED"`, `"TIMEDOUT"` to `failed`,
and every other value — unset (`none`) and the empty string included — to
`running`. -/
theorem jobRunState_buckets :
    jobRunState (some "SUCCESS") = "succeeded" ∧
    (∀ rs : Option String,
      rs = some "FAILED" ∨ rs = some "CANCELED" ∨ rs = some "TIMEDOUT" →
        jobRunState rs = "failed") ∧
    (∀ rs : Option String,
      rs ≠ some "SUCCESS" → rs ≠ some "FAILED" → rs ≠ some "CANCELED" →
        rs ≠ some "TIMEDOUT" → jobRunState rs = "running") ∧
    jobRunState none = "running" ∧ jobRunState (some "") = "running" := by
  refine ⟨by decide, ?_, ?_, by decide, by decide⟩
  · rintro rs (rfl | rfl | rfl) <;> decide
  · intro rs h1 h2 h3 h4
    simp [jobRunState, h1, h2, h3, h4]

/-- Witness for `jobRunState_buckets` at `"CANCELED"` and at an unset
`result_state`. -/
theorem jobRunState_buckets_witness :
    jobRunState (some "CANCELED") = "failed" ∧ jobRunState none = "running" :=
  ⟨jobRunState_buckets.2.1 (some "CANCELED") (Or.inr (Or.inl rfl)),
   jobRunState_buckets.2.2.1 none (by decide) (by decide) (by decide) (by decide)⟩

/-- C8: for every succeeded run the tooltip's finish time is
`start_time + setup_duration + execution_duration + cleanup_duration` and
the reported elapsed duration is
`(setup_duration + execution_duration + cleanup_duration) / 1000` seconds;
at start 0, setup 1000, execution 2000, cleanup 500 the elapsed duration is
7/2 = 3.5 seconds. -/
theorem tooltip_succeeded_timing :
    (∀ r : JobRunRecord, jobRunState r.result_state = "succeeded" →
      tooltipFinishTime r = some (r.start_time + r.setup_duration +
        r.execution_duration + r.cleanup_duration) ∧
      tooltipElapsedSeconds r = some (((r.setup_duration : ℚ) +
        (r.execution_duration : ℚ) + (r.cleanup_duration : ℚ)) / 1000)) ∧
    tooltipElapsedSeconds exampleSucceededRun = some ((7 : ℚ) / 2) := by
  constructor
  · intro r h
    constructor
    · simp [tooltipFinishTime, h, jobRunEndTime]
    · simp only [tooltipElapsedSeconds, h, beq_self_eq_true, if_true]
      rw [Option.some_inj, jobRunEndTime]
      push_cast
      ring
  · norm_num [tooltipElapsedSeconds, exampleSucceededRun, jobRunState, jobRunEndTime]

/-- Witness for `tooltip_succeeded_timing` at the spec's concrete run. -/
theorem tooltip_succeeded_timing_witness :
    jobRunState exampleSucceededRun.result_state = "succeeded" ∧
    (tooltipFinishTime exampleSucceededRun = some (exampleSucceededRun.start_time +
        exampleSucceededRun.setup_duration + exampleSucceededRun.execution_duration +
        exampleSucceededRun.cleanup_duration) ∧
      tooltipElapsedSeconds exampleSucceededRun =
        some (((exampleSucceededRun.setup_duration : ℚ) +
          (exampleSucceededRun.execution_duration : ℚ) +
          (exampleSucceededRun.cleanup_duration : ℚ)) / 1000)) :=
  ⟨by decide, tooltip_succeeded_timing.1 exampleSucceededRun (by decide)⟩

/-- C9: whatever the settlement of the cancel call, `stop()` performs
exactly one job-list refresh request, it is the final step, and it is
immediately preceded by the fixed 10000 ms delay — a failed cancel call
never suppresses the refresh. -/
theorem stop_always_refreshes (runId : Int) (cancelSucceeds : Bool) :
    (stopTrace runId cancelSucceeds).countP isRefreshRequest = 1 ∧
    (stopTrace runId cancelSucceeds).getLast? = some StopEvent.refreshRequest ∧
    (stopTrace runId cancelSucceeds).dropLast.getLast? =
      some (StopEvent.waitDelay 10000) := by
  cases cancelSucceeds <;> exact ⟨rfl, rfl, rfl⟩

/-- Witness for `stop_always_refreshes`: run id 1 with a failed cancel
call. -/
theorem stop_always_refreshes_witness :
    ((stopTrace 1 false).countP isRefreshRequest = 1 ∧
      (stopTrace 1 false).getLast? = some StopEvent.refreshRequest ∧
      (stopTrace 1 false).dropLast.getLast? =
        some (StopEvent.waitDelay 10000)) :=
  stop_always_refreshes 1 false

/-- C10: `task_type`, `task_description` and `task_details` all dispatch
on `selectedTaskVariant`, the first populated payload field in the fixed
priority order notebook, JAR, Python, Spark-Submit; when no payload field
is populated all three return `none`, and when several are populated all
three describe the highest-priority one. -/
theorem task_getters_consistent (t : JobTask) :
    task_type t = (selectedTaskVariant t).map variantTypeName ∧
    task_description t = (selectedTaskVariant t).map variantDescription ∧
    task_details t = (selectedTaskVariant t).map variantDetails ∧
    (selectedTaskVariant t = none ↔
      t.notebook_task = none ∧ t.spark_jar_task = none ∧
        t.spark_python_task = none ∧ t.spark_submit_task = none) ∧
    (∀ nb, t.notebook_task = some nb →
      selectedTaskVariant t = some (TaskVariant.notebook nb)) ∧
    (∀ j, t.notebook_task = none → t.spark_jar_task = some j →
      selectedTaskVariant t = some (TaskVariant.jar j)) ∧
    (∀ p, t.notebook_task = none → t.spark_jar_task = none →
      t.spark_python_task = some p →
      selectedTaskVariant t = some (TaskVariant.python p)) ∧
    (∀ sb, t.notebook_task = none → t.spark_jar_task = none →
      t.spark_python_task = none → t.spark_submit_task = some sb →
      selectedTaskVariant t = some (TaskVariant.submit sb)) := by
  obtain ⟨nb, j, p, sb⟩ := t
  cases nb <;> cases j <;> cases p <;> cases sb <;>
    simp [task_type, task_description, task_details, selectedTaskVariant,
      variantTypeName, variantDescription, variantDetails]

/-- Witness for `task_getters_consistent`: with all four payload fields
populated, the notebook variant is selected. -/
theorem task_getters_consistent_witness :
    selectedTaskVariant exampleAllTasksPresent =
      some (TaskVariant.notebook ⟨"/nb", 0, "null"⟩) :=
  (task_getters_consistent exampleAllTasksPresent).2.2.2.2.1 ⟨"/nb", 0, "null"⟩ rfl

/-- C3: when the name matches no connection, or more than one,
`activateConnection` fails with the not-found error carrying the requested
name, the manager state is returned untouched, and no external effect is
performed. -/
theorem activateConnection_not_found (s : ManagerState) (displayName : String)
    (h : (s.connections.filter (fun x => x.displayName == displayName)).length ≠ 1) :
    activateConnection s displayName =
      (.error ("Connection with name  '" ++ displayName ++ "' could not be found!"),
       s, []) := by
  rcases hl : s.connections.filter (fun x => x.displayName == displayName) with
    _ | ⟨c, _ | ⟨d, t⟩⟩
  · simp [activateConnection, hl]
  · rw [hl] at h
    simp at h
  · simp [activateConnection, hl]

/-- Witness for `activateConnection_not_found`: activating `"B"` when only
`"A"` is configured. -/
theorem activateConnection_not_found_witness :
    activateConnection ⟨⟨none, none⟩, [⟨"A", false, true⟩], none⟩ "B" =
      (.error ("Connection with name  '" ++ "B" ++ "' could not be found!"),
       (⟨⟨none, none⟩, [⟨"A", false, true⟩], none⟩ : ManagerState), []) :=
  activateConnection_not_found _ _ (by decide)

/-- C4: when exactly one connection matches the name,
`activateConnection` returns that connection, sets it active, records the
name as `lastActiveConnection`, writes the workspace config, and its
effect trace holds exactly one remote-API-client init call — against that
connection. -/
theorem activateConnection_found (s : ManagerState) (displayName : String)
    (c : DatabricksConnection)
    (h : s.connections.filter (fun x => x.displayName == displayName) = [c]) :
    activateConnection s displayName =
      (.ok c,
       { workspaceConfig := { s.workspaceConfig with lastActiveConnection := some displayName }
         connections := s.connections
         activeConnection := some c },
       [Effect.initApiService c,
        Effect.writeWorkspaceConfiguration
          { s.workspaceConfig with lastActiveConnection := some displayName },
        Effect.setCodeCellsRegex c.useCodeCells]) ∧
    ((activateConnection s displayName).2.2.countP isInitApiService) = 1 := by
  have hmain : activateConnection s displayName =
      (.ok c,
       { workspaceConfig := { s.workspaceConfig with lastActiveConnection := some displayName }
         connections := s.connections
         activeConnection := some c },
       [Effect.initApiService c,
        Effect.writeWorkspaceConfiguration
          { s.workspaceConfig with lastActiveConnection := some displayName },
        Effect.setCodeCellsRegex c.useCodeCells]) := by
    simp [activateConnection, h]
  refine ⟨hmain, ?_⟩
  rw [hmain]
  rfl

/-- Witness for `activateConnection_found`: activating `"A"` when exactly
`"A"` is configured. -/
theorem activateConnection_found_witness :
    activateConnection ⟨⟨none, none⟩, [⟨"A", true, true⟩], none⟩ "A" =
      (.ok ⟨"A", true, true⟩,
       { workspaceConfig := { workspaceGuid := none, lastActiveConnection := some "A" }
         connections := [⟨"A", true, true⟩]
         activeConnection := some ⟨"A", true, true⟩ },
       [Effect.initApiService ⟨"A", true, true⟩,
        Effect.writeWorkspaceConfiguration
          { workspaceGuid := none, lastActiveConnection := some "A" },
        Effect.setCodeCellsRegex true]) ∧
    ((activateConnection ⟨⟨none, none⟩, [⟨"A", true, true⟩], none⟩ "A").2.2.countP
        isInitApiService) = 1 :=
  activateConnection_found ⟨⟨none, none⟩, [⟨"A", true, true⟩], none⟩ "A"
    ⟨"A", true, true⟩ (by decide)

/-- C5: when at least two global entries carry the current workspace's
guid, `loadConnections` raises the duplicate-`workspaceGuid` error instead
of picking an entry. -/
theorem load_fails_on_duplicate_workspaceGuid (snap : ConfigurationSnapshot)
    (freshGuid : String)
    (h : 2 ≤ (snap.userWorkspaceConfigurations.filter (fun x =>
        x.workspaceConfig.workspaceGuid ==
          (effectiveWorkspaceConfig snap.workspaceConfiguration
            freshGuid).workspaceGuid)).length) :
    loadConnections snap freshGuid = .error duplicateWorkspaceGuidError := by
  rcases hl : snap.userWorkspaceConfigurations.filter (fun x =>
      x.workspaceConfig.workspaceGuid ==
        (effectiveWorkspaceConfig snap.workspaceConfiguration
          freshGuid).workspaceGuid) with _ | ⟨a, _ | ⟨b, t⟩⟩
  · rw [hl] at h
    simp at h
  · rw [hl] at h
    simp at h
  · simp [loadConnections, currentUserWorkspaceConfiguration, hl]

/-- Witness for `load_fails_on_duplicate_workspaceGuid`: two global
entries with guid `"g"`. -/
theorem load_fails_on_duplicate_workspaceGuid_witness :
    2 ≤ (duplicateGuidSnapshot.userWorkspaceConfigurations.filter (fun x =>
        x.workspaceConfig.workspaceGuid ==
          (effectiveWorkspaceConfig duplicateGuidSnapshot.workspaceConfiguration
            "fresh").workspaceGuid)).length ∧
    loadConnections duplicateGuidSnapshot "fresh" =
      .error duplicateWorkspaceGuidError :=
  ⟨by decide,
   load_fails_on_duplicate_workspaceGuid duplicateGuidSnapshot "fresh" (by decide)⟩

/-- C6: the global persistence step keeps every entry whose
`workspaceGuid` differs from the current workspace's guid unchanged in the
written list. -/
theorem updateUserWorkspaceConfig_keeps_other_entries
    (allConfigs : List UserWorkspaceConfiguration)
    (current e : UserWorkspaceConfiguration)
    (he : e ∈ allConfigs)
    (hg : e.workspaceConfig.workspaceGuid ≠ current.workspaceConfig.workspaceGuid) :
    e ∈ updateUserWorkspaceConfig allConfigs current := by
  unfold updateUserWorkspaceConfig
  apply List.mem_append_left
  rw [List.mem_filter]
  exact ⟨he, by simp [hg]⟩

/-- Witness for `updateUserWorkspaceConfig_keeps_other_entries`: the entry
for guid `"other"` survives the write for guid `"current"`. -/
theorem updateUserWorkspaceConfig_keeps_other_entries_witness :
    (⟨⟨some "other", none⟩, []⟩ : UserWorkspaceConfiguration) ∈
        [(⟨⟨some "other", none⟩, []⟩ : UserWorkspaceConfiguration)] ∧
    (⟨⟨some "other", none⟩, []⟩ : UserWorkspaceConfiguration).workspaceConfig.workspaceGuid ≠
        (⟨⟨some "current", none⟩, []⟩ :
          UserWorkspaceConfiguration).workspaceConfig.workspaceGuid ∧
    (⟨⟨some "other", none⟩, []⟩ : UserWorkspaceConfiguration) ∈
      updateUserWorkspaceConfig [⟨⟨some "other", none⟩, []⟩]
        ⟨⟨some "current", none⟩, []⟩ :=
  ⟨by decide, by decide,
   updateUserWorkspaceConfig_keeps_other_entries [⟨⟨some "other", none⟩, []⟩]
     ⟨⟨some "current", none⟩, []⟩ ⟨⟨some "other", none⟩, []⟩ (by decide) (by decide)⟩

/-- Appending with a duplicate check against the accumulated list equals
appending the entries filtered against the initial list, provided the
appended entries carry pairwise distinct `displayName`s. -/
theorem foldl_dedup_eq_filter (conns p : List DatabricksConnection)
    (h : (p.map (fun x => x.displayName)).Nodup) :
    p.foldl
      (fun acc x =>
        if (acc.map (fun y => y.displayName)).contains x.displayName then acc
        else acc ++ [x])
      conns
    = conns ++ p.filter
        (fun x => !((conns.map (fun y => y.displayName)).contains x.displayName)) := by
  induction p generalizing conns with
  | nil => simp
  | cons x p ih =>
    rw [List.map_cons, List.nodup_cons] at h
    obtain ⟨hx, hp⟩ := h
    rw [List.foldl_cons]
    by_cases hc : ((conns.map (fun y => y.displayName)).contains x.displayName) = true
    · rw [if_pos hc, ih conns hp, List.filter_cons, hc]
      simp
    · rw [if_neg hc, ih (conns ++ [x]) hp]
      rw [Bool.not_eq_true] at hc
      have hfilter : p.filter
            (fun z => !(((conns ++ [x]).map (fun y => y.displayName)).contains z.displayName))
          = p.filter
            (fun z => !((conns.map (fun y => y.displayName)).contains z.displayName)) := by
        apply List.filter_congr
        intro z hz
        have hzx : z.displayName ≠ x.displayName := by
          intro hEq
          exact hx (hEq ▸ List.mem_map_of_mem (fun w => w.displayName) hz)
        simp [hzx]
      rw [hfilter, List.filter_cons, hc]
      simp [List.append_assoc]

/-- Counterexample to C1 as stated: with no explicit-list and no default
connection and the persisted source holding the same `displayName` twice,
the code's merge keeps both persisted copies, while the claim's
scan-the-accumulated-set-at-append-time description would exclude the
later duplicate. -/
theorem merge_keeps_duplicate_persisted_entries :
    mergeConnections [] none [connB, connB] = [connB, connB] ∧
    mergeConnectionsSpec [] none [connB, connB] = [connB] ∧
    mergeConnections [] none [connB, connB] ≠
      mergeConnectionsSpec [] none [connB, connB] :=
  ⟨by decide, by decide, by decide⟩

/-- C1 amended: the merge filters the persisted connections against the
explicit-list-plus-default set as it stands before any persisted entry is
appended, so duplicates among the persisted entries themselves survive;
whenever the persisted entries carry pairwise distinct `displayName`s this
coincides with the claim's append-time scan, and the earlier-precedence
entry wins on overlapping `displayName`s. -/
theorem mergeConnections_eq_spec_of_nodup
    (connectionsFromWorkspace : List DatabricksConnection)
    (defaultConnectionFromWorkspace : Option DatabricksConnection)
    (connectionsFromUserConfig : List DatabricksConnection)
    (h : (connectionsFromUserConfig.map (fun x => x.displayName)).Nodup) :
    mergeConnections connectionsFromWorkspace defaultConnectionFromWorkspace
        connectionsFromUserConfig
      = mergeConnectionsSpec connectionsFromWorkspace defaultConnectionFromWorkspace
        connectionsFromUserConfig := by
  unfold mergeConnections mergeConnectionsSpec
  exact (foldl_dedup_eq_filter _ _ h).symm

/-- Witness for `mergeConnections_eq_spec_of_nodup` at the spec's example:
explicit list `{A}`, persisted `{A, B}`. -/
theorem mergeConnections_eq_spec_of_nodup_witness :
    (([connA, connB].map (fun x => x.displayName)).Nodup) ∧
    mergeConnections [connA] none [connA, connB]
      = mergeConnectionsSpec [connA] none [connA, connB] :=
  ⟨by decide,
   mergeConnections_eq_spec_of_nodup [connA] none [connA, connB] (by decide)⟩

/-- Counterexample to C2 as stated: on an empty store, `loadConnections`
freshly generates the guid `"g1"`, yet its effect trace holds no
workspace-scope write of `databricks.workspaceConfiguration`. -/
theorem load_writes_no_workspace_scope_config :
    (loadConnections emptySnapshot "g1").map
        (fun r => (r.workspaceConfig.workspaceGuid,
          writesWorkspaceConfiguration r.writes))
      = .ok (some "g1", false) := by rfl

/-- C2 amended: the persistence step of `loadConnections` writes the
merged `{workspaceConfig, connections}` pair — the guid-augmented
workspace config included — to the global scope and clears the
workspace-scope source keys, but performs no workspace-scope write of
`databricks.workspaceConfiguration`; that write happens only inside
`activateConnection`. -/
theorem load_persists_to_global_scope_only (snap : ConfigurationSnapshot)
    (freshGuid : String) (r : LoadResult)
    (h : loadConnections snap freshGuid = .ok r) :
    r.writes =
      [Effect.writeUserWorkspaceConfigurations
        (updateUserWorkspaceConfig snap.userWorkspaceConfigurations
          ⟨r.workspaceConfig, r.connections⟩),
       Effect.clearConnectionsSetting,
       Effect.clearDefaultConnectionSettings] ∧
    writesWorkspaceConfiguration r.writes = false := by
  obtain ⟨rwc, rconns, rwrites⟩ := r
  rcases hl : snap.userWorkspaceConfigurations.filter (fun x =>
      x.workspaceConfig.workspaceGuid ==
        (effectiveWorkspaceConfig snap.workspaceConfiguration
          freshGuid).workspaceGuid) with _ | ⟨a, _ | ⟨b, t⟩⟩
  · simp [loadConnections, currentUserWorkspaceConfiguration, hl] at h
    obtain ⟨h1, h2, h3⟩ := h
    subst h1
    subst h2
    subst h3
    exact ⟨rfl, rfl⟩
  · simp [loadConnections, currentUserWorkspaceConfiguration, hl] at h
    obtain ⟨h1, h2, h3⟩ := h
    subst h1
    subst h2
    subst h3
    exact ⟨rfl, rfl⟩
  · simp [loadConnections, currentUserWorkspaceConfiguration, hl] at h

/-- Witness for `load_persists_to_global_scope_only` at the empty store. -/
theorem load_persists_to_global_scope_only_witness :
    (loadConnections emptySnapshot "g1" = .ok emptySnapshotLoadResult) ∧
    (emptySnapshotLoadResult.writes =
      [Effect.writeUserWorkspaceConfigurations
        (updateUserWorkspaceConfig emptySnapshot.userWorkspaceConfigurations
          ⟨emptySnapshotLoadResult.workspaceConfig,
            emptySnapshotLoadResult.connections⟩),
       Effect.clearConnectionsSetting,
       Effect.clearDefaultConnectionSettings] ∧
     writesWorkspaceConfiguration emptySnapshotLoadResult.writes = false) :=
  ⟨by rfl,
   load_persists_to_global_scope_only emptySnapshot "g1" emptySnapshotLoadResult
     (by rfl)⟩

end DatabricksVSCode
